import Mathlib

/-!
Shallow embedding of the signal-to-order execution pipeline of the
`rocket_fuel_trading` repository (`trading_consumer` package), together with
proofs about the properties its specification states.

Prices, quantities and timestamps are modelled as rationals (`ℚ`); timestamps
are in seconds.  Each definition carries a doc comment naming the Python
function it is translated from.
-/

namespace RocketFuel

/-- `SignalType` enum from `models/trading.py`. -/
inductive SignalType
  | buy
  | sell
  | long
  | short
  | close
deriving DecidableEq, Repr

/-- `OrderType` enum from `models/trading.py`. -/
inductive OrderType
  | market
  | limit
  | stop
  | stop_limit
deriving DecidableEq, Repr

/-- `OrderStatus` enum from `models/trading.py` (`opened` stands for `OPEN`,
`partFilled` for `PARTIALLY_FILLED`). -/
inductive OrderStatus
  | pending
  | opened
  | filled
  | partFilled
  | cancelled
  | rejected
deriving DecidableEq, Repr

/-- The `side` string passed to `ccxt.create_order` in `trading/exchange.py`. -/
inductive OrderSide
  | buy
  | sell
deriving DecidableEq, Repr

/-- `TradingSignal` as constructed by `SignalParser._parse_from_json`
(`parsers/signal_parser.py`, lines 139-162).  Numeric fields are `Option ℚ`
(`None` or a positive value, enforced by the pydantic validators); the
`symbol_needs_resolution` entry of the metadata dict is modelled as a field.
The `trader_conviction` value is the one the parser passes to the constructor;
see `tradingSignalDeclaredFields` for the fields the pydantic model itself
declares. -/
structure TradingSignal where
  signal_type : SignalType
  symbol : String
  price : Option ℚ := none
  quantity : Option ℚ := none
  stop_loss : Option ℚ := none
  take_profit : Option ℚ := none
  leverage : Option ℕ := none
  confidence : ℚ := 0
  trader_conviction : Option String := none
  source_message : String := ""
  symbol_needs_resolution : Bool := false
deriving DecidableEq, Repr

/-- `TradingConfig` defaults from `models/config.py` (lines 66-77). -/
structure TradingConfig where
  default_position_size_usd : ℚ := 12
  position_low : ℚ := 6
  position_mid : ℚ := 12
  position_high : ℚ := 24
  default_leverage : ℕ := 2
  default_tp_percent : ℚ := 5/100
  default_sl_percent : ℚ := 2/100
  max_leverage : ℕ := 10
  min_confidence : ℚ := 1/2
deriving DecidableEq, Repr

/-- `RecentTrade` from `main.py` (lines 23-32): one deduplication-ledger
entry. -/
structure RecentTrade where
  symbol : String
  signal_type : SignalType
  entry_price : Option ℚ
  leverage : Option ℕ
  timestamp : ℚ
deriving DecidableEq, Repr

/-- An order request submitted to the exchange (the arguments of
`ccxt.create_order` as assembled in `main.py` / `trading/exchange.py`). -/
structure OrderReq where
  symbol : String
  side : OrderSide
  otype : OrderType
  quantity : ℚ
  price : Option ℚ := none
  leverage : Option ℕ := none
  reduceOnly : Bool := false
deriving DecidableEq, Repr

/-- The externally observable effects of one run of
`TradingConsumer._execute_buy_signal` / `_execute_sell_signal`:
which entry orders were submitted, whether a TP/SL bracket request was made
(and with which prices), and which owner notification was sent. -/
structure EntryOutcome where
  submitted : List OrderReq := []
  brackets : Option (ℚ × ℚ) := none
  notifiedFailure : Bool := false
  notifiedSuccess : Bool := false
deriving DecidableEq, Repr

/-- The exchange environment one signal execution observes: the listed
symbols, the mid price returned by `get_ticker`, whether `set_leverage`
succeeds, the status of the created entry order, the traces seen by the
fill-wait polling loop, and the position reported to `close_position`. -/
structure Env where
  available : List String := []
  midPrice : Option ℚ := none
  leverageOk : Bool := true
  orderResultStatus : OrderStatus := OrderStatus.opened
  statusAt : ℕ → OrderStatus := fun _ => OrderStatus.opened
  contractsAt : ℕ → ℚ := fun _ => 0
  closeContracts : Option ℚ := none
  closeMid : ℚ := 0

/-- Python `str.upper` on ASCII strings (structural model). -/
def pyUpper (s : String) : String := String.mk (s.data.map Char.toUpper)

/-- Python `str.lower` on ASCII strings (structural model). -/
def pyLower (s : String) : String := String.mk (s.data.map Char.toLower)

/-- Python `str.strip`: drop leading and trailing whitespace. -/
def pyStrip (s : String) : String :=
  String.mk (((s.data.dropWhile Char.isWhitespace).reverse.dropWhile
    Char.isWhitespace).reverse)

/-- Python `str.startswith` with a one-character argument: the first character
equals `c` (an empty string starts with nothing). -/
def pyStartsWith1 (s : String) (c : Char) : Bool :=
  match s.data with
  | [] => false
  | a :: _ => a == c

/-- Python `s[1:]`: drop the first character. -/
def pyDropFirst (s : String) : String := String.mk (s.data.drop 1)

/-- The dedup window `timedelta(minutes=10)` from `main.py` line 46, in
seconds. -/
def dedupWindowSeconds : ℚ := 600

/-- `TradingConsumer._cleanup_old_trades` (`main.py` lines 185-191): keep the
entries whose timestamp is strictly later than `now` minus the window. -/
def cleanupOldTrades (now : ℚ) (trades : List RecentTrade) : List RecentTrade :=
  trades.filter (fun t => decide (now - dedupWindowSeconds < t.timestamp))

/-- The `price_match` condition of `TradingConsumer._is_duplicate_trade`
(`main.py` lines 203-207): both prices absent, or both present and within
`0.01` absolute tolerance (strict). -/
def priceMatch : Option ℚ → Option ℚ → Bool
  | none, none => true
  | some a, some b => decide (|a - b| < 1/100)
  | _, _ => false

/-- The per-entry match of `TradingConsumer._is_duplicate_trade`
(`main.py` lines 198-217): same symbol and signal type, prices match, leverage
equal. -/
def tradeMatches (t : RecentTrade) (sig : TradingSignal) : Bool :=
  decide (t.symbol = sig.symbol) && decide (t.signal_type = sig.signal_type) &&
    (priceMatch t.entry_price sig.price && decide (t.leverage = sig.leverage))

/-- `TradingConsumer._is_duplicate_trade` (`main.py` lines 193-219): purge the
ledger, then scan the remaining entries. -/
def isDuplicateTrade (now : ℚ) (trades : List RecentTrade) (sig : TradingSignal) : Bool :=
  (cleanupOldTrades now trades).any (fun t => tradeMatches t sig)

/-- `TradingConsumer._record_trade` (`main.py` lines 221-231). -/
def recordTrade (now : ℚ) (sig : TradingSignal) : RecentTrade :=
  { symbol := sig.symbol
    signal_type := sig.signal_type
    entry_price := sig.price
    leverage := sig.leverage
    timestamp := now }

/-- `SymbolResolver.resolve_symbol` (`utils/symbol_resolver.py` lines 63-104),
with `available` standing for the set of perpetual symbols extracted by
`get_available_symbols`.  Mirrors the source exactly: an empty input symbol
yields `none`; the symbol is uppercased and trimmed; when the listing query
yields no symbols the (normalized) original symbol is returned as-is; then the
symbol itself and its `k`-prefixed variant are probed in that order. -/
def resolve_symbol (available : List String) (symbol : String) : Option String :=
  if symbol = "" then none
  else
    let s := pyStrip (pyUpper symbol)
    if available = [] then some s
    else if s ∈ available then some s
    else if ("k" ++ s) ∈ available then some ("k" ++ s)
    else none

/-- The k-token scaling condition of `TradingConsumer._execute_signal`
(`main.py` lines 270-272): the original symbol does not start with `K`
(case-insensitively), the resolved one does, and dropping that first character
from the resolved symbol gives back the original (uppercased). -/
def kScaleCond (original resolved : String) : Bool :=
  !pyStartsWith1 (pyUpper original) 'K' &&
    pyStartsWith1 (pyUpper resolved) 'K' &&
    decide (pyUpper (pyDropFirst resolved) = pyUpper original)

/-- The price-scaling block of `TradingConsumer._execute_signal`
(`main.py` lines 276-290): multiply each present price field by 1000. -/
def scaleSignalPrices (sig : TradingSignal) : TradingSignal :=
  { sig with
    price := sig.price.map (· * 1000)
    stop_loss := sig.stop_loss.map (· * 1000)
    take_profit := sig.take_profit.map (· * 1000) }

/-- The symbol-resolution step of `TradingConsumer._execute_signal`
(`main.py` lines 250-293): when the parser flagged the symbol for resolution,
resolve it (aborting on failure), apply k-token price scaling when the
resolved symbol differs and the scaling condition holds, and substitute the
resolved symbol. -/
def resolveAndScale (available : List String) (sig : TradingSignal) : Option TradingSignal :=
  if sig.symbol_needs_resolution then
    match resolve_symbol available sig.symbol with
    | none => none
    | some r =>
      let sig' := if r ≠ sig.symbol ∧ kScaleCond sig.symbol r then scaleSignalPrices sig else sig
      some { sig' with symbol := r }
  else some sig

/-- `TradingConfig.get_position_size_for_conviction`
(`models/config.py` lines 87-103): three-tier conviction table with a default
for missing, empty or unknown conviction; matching is on the lowercased,
trimmed conviction string. -/
def positionSizeForConviction (cfg : TradingConfig) (conv : Option String) : ℚ :=
  match conv with
  | none => cfg.default_position_size_usd
  | some c =>
    if c = "" then cfg.default_position_size_usd
    else
      let cl := pyStrip (pyLower c)
      if cl = "low" ∨ cl = "weak" ∨ cl = "small" ∨ cl = "light" then
        cfg.position_low
      else if cl = "medium" ∨ cl = "med" ∨ cl = "moderate" ∨ cl = "normal" then
        cfg.position_mid
      else if cl = "high" ∨ cl = "strong" ∨ cl = "large" ∨ cl = "heavy" ∨ cl = "confident" then
        cfg.position_high
      else cfg.default_position_size_usd

/-- Python `round` to an integer: round half to even. -/
def roundHalfEven (x : ℚ) : ℤ :=
  let f := ⌊x⌋
  if x - f < 1/2 then f
  else if 1/2 < x - f then f + 1
  else if f % 2 = 0 then f else f + 1

/-- Python `round(x, 6)` as used for position sizing in
`main.py` lines 334 and 519. -/
def round6 (x : ℚ) : ℚ := (roundHalfEven (x * 1000000) : ℚ) / 1000000

/-- The four-way TP/SL bracket policy of `_execute_buy_signal`
(`main.py` lines 352-374) and `_execute_sell_signal` (lines 537-559), which
differ only in direction (`isLong`).  Returns `(tp_price, sl_price)`. -/
def computeBrackets (isLong : Bool) (tpSig slSig : Option ℚ)
    (entry current dtp dsl : ℚ) : ℚ × ℚ :=
  match tpSig, slSig with
  | some tp, some sl => (tp, sl)
  | none, some sl =>
    let slPercent := |sl - current| / current
    let tpPercent := slPercent * 2
    (if isLong then current * (1 + tpPercent) else current * (1 - tpPercent), sl)
  | some tp, none =>
    (tp, if isLong then entry * (1 - dsl) else entry * (1 + dsl))
  | none, none =>
    (if isLong then entry * (1 + dtp) else entry * (1 - dtp),
     if isLong then entry * (1 - dsl) else entry * (1 + dsl))

/-- The order-type selection of `_execute_buy_signal` (`main.py` lines 387-410)
and `_execute_sell_signal` (lines 571-595): with a signal price, compare
`abs(current_price - signal_price) / signal_price` against `0.05`; without one,
use a market order.  Returns the order type and the limit price (if any). -/
def orderTypeSelection (currentPrice : ℚ) (sigPrice : Option ℚ) : OrderType × Option ℚ :=
  match sigPrice with
  | none => (OrderType.market, none)
  | some sp =>
    if |currentPrice - sp| / sp ≤ 5/100 then (OrderType.market, none)
    else (OrderType.limit, some sp)

/-- One iteration step of `HyperliquidExchange.wait_for_order_fill`
(`trading/exchange.py` lines 274-311), with `fuel` remaining iterations:
a `FILLED` status or a nonzero reported position returns `true`, a
`CANCELLED`/`REJECTED` status returns `false`, anything else sleeps and
retries; exhausting the iteration budget returns `false`. -/
def waitForFillAux (statusAt : ℕ → OrderStatus) (contractsAt : ℕ → ℚ) :
    ℕ → ℕ → Bool
  | _, 0 => false
  | attempt, fuel + 1 =>
    if statusAt attempt = OrderStatus.filled then true
    else if statusAt attempt = OrderStatus.cancelled ∨
        statusAt attempt = OrderStatus.rejected then false
    else if contractsAt attempt ≠ 0 then true
    else waitForFillAux statusAt contractsAt (attempt + 1) fuel

/-- `HyperliquidExchange.wait_for_order_fill` (`trading/exchange.py`
lines 274-311): `for attempt in range(timeout_seconds)` with one-second
sleeps, starting at attempt 0. -/
def waitForOrderFill (statusAt : ℕ → OrderStatus) (contractsAt : ℕ → ℚ)
    (timeout : ℕ) : Bool :=
  waitForFillAux statusAt contractsAt 0 timeout

/-- `HyperliquidExchange.close_position` (`trading/exchange.py`
lines 469-512) on the path used by `_execute_close_signal` (no explicit size):
`reported` is the `contracts` value of the fetched position (or `none` when
the fetch yields no entry); no position or a zero position raises (`none`);
otherwise a market order with the literal side `'sell'`, the absolute position
size and the reduce-only flag is created at the current mid price. -/
def close_position (reported : Option ℚ) (currentPrice : ℚ) (symbol : String) :
    Option OrderReq :=
  match reported with
  | none => none
  | some c =>
    if c = 0 then none
    else
      some { symbol := symbol
             side := OrderSide.sell
             otype := OrderType.market
             quantity := |c|
             price := some currentPrice
             reduceOnly := true }

/-- `TradingConsumer._execute_buy_signal` (`main.py` lines 313-496) and
`_execute_sell_signal` (lines 498-681), which are line-for-line mirrors of
each other (`isLong` selects the direction): fetch the mid price (abort
silently if unavailable), size the position from the explicit quantity or the
conviction table, set leverage (abort on failure), compute brackets and the
order type, submit the entry order, and — unless the creation result is
already `FILLED` — wait for the fill; on timeout notify failure and stop
without bracket orders, otherwise request the TP/SL brackets and notify
success. -/
def executeEntrySignal (isLong : Bool) (cfg : TradingConfig) (env : Env)
    (sig : TradingSignal) : EntryOutcome :=
  match env.midPrice with
  | none => {}
  | some current =>
    let quantity :=
      match sig.quantity with
      | some q => q
      | none => round6 (positionSizeForConviction cfg sig.trader_conviction / current)
    let leverage := sig.leverage.getD cfg.default_leverage
    if env.leverageOk then
      let entry := sig.price.getD current
      let tpsl := computeBrackets isLong sig.take_profit sig.stop_loss entry current
        cfg.default_tp_percent cfg.default_sl_percent
      let sel := orderTypeSelection current sig.price
      let order : OrderReq :=
        { symbol := sig.symbol
          side := if isLong then OrderSide.buy else OrderSide.sell
          otype := sel.1
          quantity := quantity
          price := sel.2
          leverage := some leverage }
      if env.orderResultStatus = OrderStatus.filled then
        { submitted := [order], brackets := some tpsl, notifiedSuccess := true }
      else if waitForOrderFill env.statusAt env.contractsAt 30 then
        { submitted := [order], brackets := some tpsl, notifiedSuccess := true }
      else
        { submitted := [order], notifiedFailure := true }
    else {}

/-- The observable result of `TradingConsumer._execute_signal`. -/
inductive SigOutcome
  | duplicate
  | resolutionFailed
  | entry (o : EntryOutcome)
  | closeAttempt (o : Option OrderReq)
deriving DecidableEq, Repr

/-- The entry/close orders an execution submitted to the exchange. -/
def ordersSubmitted : SigOutcome → List OrderReq
  | SigOutcome.duplicate => []
  | SigOutcome.resolutionFailed => []
  | SigOutcome.entry o => o.submitted
  | SigOutcome.closeAttempt o => o.toList

/-- `TradingConsumer._execute_signal` (`main.py` lines 233-311): duplicate
check first, then symbol resolution and k-token scaling (aborting when
resolution fails), then dispatch on the signal type; `_execute_close_signal`
(lines 683-717) queries the position and calls `close_position`. -/
def executeSignal (cfg : TradingConfig) (now : ℚ) (ledger : List RecentTrade)
    (env : Env) (sig : TradingSignal) : SigOutcome :=
  if isDuplicateTrade now ledger sig then SigOutcome.duplicate
  else
    match resolveAndScale env.available sig with
    | none => SigOutcome.resolutionFailed
    | some sig' =>
      match sig'.signal_type with
      | SignalType.buy => SigOutcome.entry (executeEntrySignal true cfg env sig')
      | SignalType.long => SigOutcome.entry (executeEntrySignal true cfg env sig')
      | SignalType.sell => SigOutcome.entry (executeEntrySignal false cfg env sig')
      | SignalType.short => SigOutcome.entry (executeEntrySignal false cfg env sig')
      | SignalType.close =>
        SigOutcome.closeAttempt (close_position env.closeContracts env.closeMid sig'.symbol)

/-- The fields the pydantic model `TradingSignal` declares
(`models/trading.py` lines 39-52). -/
def tradingSignalDeclaredFields : List String :=
  ["signal_type", "symbol", "price", "quantity", "stop_loss", "take_profit",
   "leverage", "confidence", "timestamp", "source_message", "metadata"]

/-- The keyword arguments `SignalParser._parse_from_json` passes to the
`TradingSignal` constructor (`parsers/signal_parser.py` lines 139-162). -/
def signalParserConstructorArgs : List String :=
  ["signal_type", "symbol", "price", "quantity", "stop_loss", "take_profit",
   "leverage", "confidence", "trader_conviction", "source_message", "metadata"]

/-! ## Shared concrete inputs for witnesses -/

/-- A concrete BUY signal with a price and explicit leverage. -/
def sigA : TradingSignal :=
  { signal_type := SignalType.buy, symbol := "BTC", price := some 50000, leverage := some 3 }

/-- A concrete BUY signal with no price, no quantity and no leverage. -/
def sigNoPrice : TradingSignal := { signal_type := SignalType.buy, symbol := "ETH" }

/-- A concrete signal whose symbol needs resolution (`PEPE`, entry price 100). -/
def pepeSig : TradingSignal :=
  { signal_type := SignalType.buy, symbol := "PEPE", price := some 100,
    symbol_needs_resolution := true }

/-- A concrete environment in which the entry order is never filled: status
stays `OPEN` and no position ever appears. -/
def envStuck : Env :=
  { midPrice := some 100, leverageOk := true,
    orderResultStatus := OrderStatus.opened,
    statusAt := fun _ => OrderStatus.opened, contractsAt := fun _ => 0 }

/-! ## C1: deduplication window -/

/-- C1: two signals with identical symbol, signal type and leverage whose
prices match within the 0.01 tolerance (or are both absent) are treated as
duplicates exactly inside the 10-minute (600 s) window: if the second arrives
less than 600 s after the first was recorded, the duplicate check rejects it
and the executor submits no order for it; if it arrives after the window has
elapsed, it is not rejected as a duplicate. -/
theorem dedup_window_property (sig₁ sig₂ : TradingSignal) (t₁ t₂ : ℚ)
    (hsym : sig₁.symbol = sig₂.symbol) (hty : sig₁.signal_type = sig₂.signal_type)
    (hlev : sig₁.leverage = sig₂.leverage)
    (hpr : priceMatch sig₁.price sig₂.price = true) :
    (t₂ - t₁ < 600 →
      isDuplicateTrade t₂ [recordTrade t₁ sig₁] sig₂ = true ∧
      ∀ (cfg : TradingConfig) (env : Env),
        ordersSubmitted (executeSignal cfg t₂ [recordTrade t₁ sig₁] env sig₂) = []) ∧
    (600 < t₂ - t₁ → isDuplicateTrade t₂ [recordTrade t₁ sig₁] sig₂ = false) := by
  constructor
  · intro h
    have hkeep : t₂ - dedupWindowSeconds < t₁ := by
      unfold dedupWindowSeconds; linarith
    have hdup : isDuplicateTrade t₂ [recordTrade t₁ sig₁] sig₂ = true := by
      simp [isDuplicateTrade, cleanupOldTrades, recordTrade, tradeMatches, hkeep,
        hsym, hty, hlev, hpr]
    refine ⟨hdup, fun cfg env => ?_⟩
    simp [executeSignal, hdup, ordersSubmitted]
  · intro h
    have hdrop : ¬ (t₂ - dedupWindowSeconds < t₁) := by
      unfold dedupWindowSeconds; linarith
    simp [isDuplicateTrade, cleanupOldTrades, recordTrade, hdrop]

/-- Witness for C1: a signal recorded at `t = 0` is a duplicate at `t = 300`
(no order submitted) and no longer one at `t = 700`. -/
theorem dedup_window_property_witness :
    isDuplicateTrade 300 [recordTrade 0 sigA] sigA = true ∧
    ordersSubmitted (executeSignal {} 300 [recordTrade 0 sigA] {} sigA) = [] ∧
    isDuplicateTrade 700 [recordTrade 0 sigA] sigA = false := by
  have h₁ := dedup_window_property sigA sigA 0 300 rfl rfl rfl
    (by norm_num [sigA, priceMatch])
  have h₂ := dedup_window_property sigA sigA 0 700 rfl rfl rfl
    (by norm_num [sigA, priceMatch])
  exact ⟨(h₁.1 (by norm_num)).1, (h₁.1 (by norm_num)).2 {} {}, h₂.2 (by norm_num)⟩

/-! ## C2: k-token price rescaling -/

/-- C2: when a signal flagged for resolution has a symbol that does not start
with the scaling prefix and resolution maps it to the k-prefixed variant of
the same root ticker, the executor multiplies every present price field
(`price`, `stop_loss`, `take_profit`) by exactly 1000 and keeps absent fields
absent, continuing with the resolved symbol. -/
theorem ktoken_rescale (available : List String) (sig : TradingSignal) (r : String)
    (hflag : sig.symbol_needs_resolution = true)
    (hres : resolve_symbol available sig.symbol = some r)
    (h₁ : pyStartsWith1 (pyUpper sig.symbol) 'K' = false)
    (h₂ : pyStartsWith1 (pyUpper r) 'K' = true)
    (h₃ : pyUpper (pyDropFirst r) = pyUpper sig.symbol) :
    resolveAndScale available sig =
      some { sig with
             symbol := r
             price := sig.price.map (· * 1000)
             stop_loss := sig.stop_loss.map (· * 1000)
             take_profit := sig.take_profit.map (· * 1000) } := by
  have hne : r ≠ sig.symbol := by
    intro he
    rw [he, h₁] at h₂
    exact Bool.false_ne_true h₂
  have hcond : kScaleCond sig.symbol r = true := by
    simp [kScaleCond, h₁, h₂, h₃]
  simp [resolveAndScale, hflag, hres, hne, hcond, scaleSignalPrices]

/-- Witness for C2: `PEPE` with price 100 resolved against listings
`["kPEPE"]` continues as `kPEPE` with price 100000 (stop loss and take profit
stay absent). -/
theorem ktoken_rescale_witness :
    resolveAndScale ["kPEPE"] pepeSig =
      some { pepeSig with symbol := "kPEPE", price := some 100000 } := by
  have h := ktoken_rescale ["kPEPE"] pepeSig "kPEPE" rfl (by decide) (by decide)
    (by decide) (by decide)
  norm_num [pepeSig] at h ⊢
  exact h

/-! ## C3: symbol resolution -/

/-- Counterexample for C3: when the exchange listing query yields no symbols,
`resolve_symbol` returns the original ticker even though neither it nor its
k-variant was verified against any listing, where the claim demands `none`. -/
theorem symbol_resolution_counterexample :
    resolve_symbol [] "PEPE" = some "PEPE" ∧
    "PEPE" ∉ ([] : List String) ∧ "kPEPE" ∉ ([] : List String) := by
  refine ⟨by decide, by simp, by simp⟩

/-- C3 (amended): provided the exchange listing query returns a nonempty
symbol set, resolution of a nonempty, normalized (uppercase and trimmed)
ticker returns the ticker unchanged when it is listed, otherwise the single
k-prefixed variant when that variant is listed, otherwise `none`; every symbol
it returns is in the listings; and whenever resolution returns `none` for a
signal flagged for resolution, the executor submits no order. -/
theorem symbol_resolution_amended (available : List String) (t : String)
    (hav : available ≠ []) (ht : t ≠ "") (hclean : pyStrip (pyUpper t) = t) :
    (t ∈ available → resolve_symbol available t = some t) ∧
    (t ∉ available → ("k" ++ t) ∈ available →
      resolve_symbol available t = some ("k" ++ t)) ∧
    (t ∉ available → ("k" ++ t) ∉ available → resolve_symbol available t = none) ∧
    (∀ r, resolve_symbol available t = some r → r ∈ available) ∧
    (∀ (cfg : TradingConfig) (now : ℚ) (ledger : List RecentTrade) (env : Env)
        (sig : TradingSignal), sig.symbol_needs_resolution = true →
      resolve_symbol env.available sig.symbol = none →
      ordersSubmitted (executeSignal cfg now ledger env sig) = []) := by
  have habort : ∀ (cfg : TradingConfig) (now : ℚ) (ledger : List RecentTrade) (env : Env)
      (sig : TradingSignal), sig.symbol_needs_resolution = true →
      resolve_symbol env.available sig.symbol = none →
      ordersSubmitted (executeSignal cfg now ledger env sig) = [] := by
    intro cfg now ledger env sig hflag hnone
    by_cases hdup : isDuplicateTrade now ledger sig = true
    · simp [executeSignal, hdup, ordersSubmitted]
    · simp [executeSignal, hdup, resolveAndScale, hflag, hnone, ordersSubmitted]
  refine ⟨?_, ?_, ?_, ?_, habort⟩
  · intro hmem
    simp [resolve_symbol, ht, hav, hclean, hmem]
  · intro hout hkmem
    simp [resolve_symbol, ht, hav, hclean, hout, hkmem]
  · intro hout hkout
    simp [resolve_symbol, ht, hav, hclean, hout, hkout]
  · intro r hr
    by_cases hmem : t ∈ available
    · simp [resolve_symbol, ht, hav, hclean, hmem] at hr
      rwa [← hr]
    · by_cases hkmem : ("k" ++ t) ∈ available
      · simp [resolve_symbol, ht, hav, hclean, hmem, hkmem] at hr
        rwa [← hr]
      · simp [resolve_symbol, ht, hav, hclean, hmem, hkmem] at hr

/-- Witness for C3 (amended): against listings `["BTC", "kPEPE"]`, `PEPE`
resolves to `kPEPE`, `BTC` resolves to itself, and `DOGE` resolves to
`none`. -/
theorem symbol_resolution_amended_witness :
    resolve_symbol ["BTC", "kPEPE"] "PEPE" = some "kPEPE" ∧
    resolve_symbol ["BTC", "kPEPE"] "BTC" = some "BTC" ∧
    resolve_symbol ["BTC", "kPEPE"] "DOGE" = none := by
  have hp := symbol_resolution_amended ["BTC", "kPEPE"] "PEPE"
    (by simp) (by decide) (by decide)
  have hb := symbol_resolution_amended ["BTC", "kPEPE"] "BTC"
    (by simp) (by decide) (by decide)
  have hd := symbol_resolution_amended ["BTC", "kPEPE"] "DOGE"
    (by simp) (by decide) (by decide)
  exact ⟨hp.2.1 (by decide) (by decide), hb.1 (by decide),
    hd.2.2.1 (by decide) (by decide)⟩

/-! ## C4: order-type selection -/

/-- Counterexample for C4: a signal price of 95 against a market price of 100
is exactly 5 % away from the market price, so the claim's inclusive boundary
demands a MARKET order, but the code compares
`abs(current - signal) / signal = 5/95 > 0.05` and submits a LIMIT order. -/
theorem order_type_boundary_counterexample :
    |(95 : ℚ) - 100| = 5/100 * 100 ∧
    orderTypeSelection 100 (some 95) = (OrderType.limit, some 95) := by
  constructor
  · norm_num
  · rw [orderTypeSelection, if_neg (by norm_num)]

/-- C4 (amended): the 5 % band is measured relative to the signal's own
price: with a signal price `sp`, a MARKET order is selected when
`|market − sp| / sp ≤ 0.05` (inclusive) and a LIMIT order at `sp` when the
ratio exceeds 0.05; a signal without a price always selects a MARKET
order. -/
theorem order_type_selection_amended (cur sp : ℚ) :
    orderTypeSelection cur none = (OrderType.market, none) ∧
    (|cur - sp| / sp ≤ 5/100 →
      orderTypeSelection cur (some sp) = (OrderType.market, none)) ∧
    (5/100 < |cur - sp| / sp →
      orderTypeSelection cur (some sp) = (OrderType.limit, some sp)) := by
  refine ⟨rfl, fun h => ?_, fun h => ?_⟩
  · simp [orderTypeSelection, h]
  · simp [orderTypeSelection, not_le.mpr h]

/-- Witness for C4 (amended): market 100 with signal price 98 (2 % off) gives
a MARKET order; market 100 with signal price 200 (50 % off) gives a LIMIT
order at 200. -/
theorem order_type_selection_amended_witness :
    orderTypeSelection 100 (some 98) = (OrderType.market, none) ∧
    orderTypeSelection 100 (some 200) = (OrderType.limit, some 200) :=
  ⟨(order_type_selection_amended 100 98).2.1 (by norm_num),
   (order_type_selection_amended 100 200).2.2 (by norm_num)⟩

/-! ## C5: take profit derived from stop loss -/

/-- C5: when a signal carries a stop loss but no take profit, the computed
take profit is anchored to the current market price at twice the stop loss's
percentage distance from market, on the profit side: long gives
`market * (1 + 2p)`, short gives `market * (1 − 2p)` with
`p = |SL − market| / market`; concretely, market 100 with SL 95 (long) gives
TP 110 and with SL 105 (short) gives TP 90. -/
theorem bracket_tp_from_sl (sl entry cur dtp dsl : ℚ) :
    computeBrackets true none (some sl) entry cur dtp dsl
      = (cur * (1 + 2 * (|sl - cur| / cur)), sl) ∧
    computeBrackets false none (some sl) entry cur dtp dsl
      = (cur * (1 - 2 * (|sl - cur| / cur)), sl) ∧
    computeBrackets true none (some 95) 100 100 (5/100) (2/100) = (110, 95) ∧
    computeBrackets false none (some 105) 100 100 (5/100) (2/100) = (90, 105) := by
  refine ⟨?_, ?_, by norm_num [computeBrackets], by norm_num [computeBrackets]⟩
  · show (cur * (1 + |sl - cur| / cur * 2), sl) = _
    rw [show |sl - cur| / cur * 2 = 2 * (|sl - cur| / cur) from by ring]
  · show (cur * (1 - |sl - cur| / cur * 2), sl) = _
    rw [show |sl - cur| / cur * 2 = 2 * (|sl - cur| / cur) from by ring]

/-! ## C6: conviction-based position sizing -/

/-- C6: the executor reads `signal.trader_conviction`, which the parser passes
to the `TradingSignal` constructor, but the pydantic model does not declare
that field (so the attribute access fails at runtime); the remaining conjuncts
evaluate the sizing pipeline the claim describes at the claimed scenario:
conviction `high` maps to 24 USD, `round(24/2000, 6) = 0.012`, a priceless
signal selects a MARKET order, default leverage is 2 and the default bracket
percentages at entry 2000 give TP 2100 and SL 1960. -/
theorem conviction_sizing_model_gap :
    ("trader_conviction" ∈ signalParserConstructorArgs ∧
      "trader_conviction" ∉ tradingSignalDeclaredFields) ∧
    positionSizeForConviction {} (some "high") = 24 ∧
    round6 (24 / 2000) = 12/1000 ∧
    orderTypeSelection 2000 none = (OrderType.market, none) ∧
    computeBrackets true none none 2000 2000 (5/100) (2/100) = (2100, 1960) ∧
    (none : Option ℕ).getD (TradingConfig.default_leverage {}) = 2 := by
  refine ⟨⟨by decide, by decide⟩, rfl, ?_, rfl, by norm_num [computeBrackets], rfl⟩
  rw [round6, roundHalfEven]
  norm_num

/-! ## C7: fill-wait termination bound -/

theorem waitForFillAux_never (statusAt : ℕ → OrderStatus) (contractsAt : ℕ → ℚ)
    (hs : ∀ n, statusAt n ≠ OrderStatus.filled) (hc : ∀ n, contractsAt n = 0) :
    ∀ fuel attempt, waitForFillAux statusAt contractsAt attempt fuel = false := by
  intro fuel
  induction fuel with
  | zero => intro attempt; rfl
  | succ f ih =>
    intro attempt
    rw [waitForFillAux, if_neg (hs attempt)]
    by_cases hterm : statusAt attempt = OrderStatus.cancelled ∨
        statusAt attempt = OrderStatus.rejected
    · rw [if_pos hterm]
    · rw [if_neg hterm, if_neg (by simp [hc attempt])]
      exact ih (attempt + 1)

/-- C7: when the order status never becomes `FILLED` and no nonzero position
ever appears, `wait_for_order_fill` returns `false` after its 30 bounded
one-second iterations (the loop is structurally bounded by that iteration
count), and an executor run that submitted the entry order then notifies
failure and stops without requesting bracket orders. -/
theorem fill_wait_bounded (statusAt : ℕ → OrderStatus) (contractsAt : ℕ → ℚ)
    (hs : ∀ n, statusAt n ≠ OrderStatus.filled) (hc : ∀ n, contractsAt n = 0) :
    waitForOrderFill statusAt contractsAt 30 = false ∧
    ∀ (isLong : Bool) (cfg : TradingConfig) (env : Env) (sig : TradingSignal) (cur : ℚ),
      env.midPrice = some cur → env.leverageOk = true →
      env.statusAt = statusAt → env.contractsAt = contractsAt →
      env.orderResultStatus ≠ OrderStatus.filled →
      ∃ o, executeEntrySignal isLong cfg env sig =
        { submitted := [o], brackets := none,
          notifiedFailure := true, notifiedSuccess := false } := by
  have hwait := waitForFillAux_never statusAt contractsAt hs hc 30
  refine ⟨hwait 0, ?_⟩
  intro isLong cfg env sig cur hmp hlev hst hct hstatus
  have hw : waitForOrderFill env.statusAt env.contractsAt 30 = false := by
    rw [hst, hct]; exact hwait 0
  simp only [executeEntrySignal, hmp, hlev, if_true, hstatus, if_false, hw,
    ite_false, ite_true]
  exact ⟨_, rfl⟩

/-- Witness for C7: with a status trace constantly `OPEN` and a position trace
constantly zero, the fill wait returns `false` and the executor run reports
failure with no brackets. -/
theorem fill_wait_bounded_witness :
    waitForOrderFill (fun _ => OrderStatus.opened) (fun _ => (0 : ℚ)) 30 = false ∧
    (executeEntrySignal true {} envStuck sigNoPrice).brackets = none ∧
    (executeEntrySignal true {} envStuck sigNoPrice).notifiedFailure = true := by
  have h := fill_wait_bounded (fun _ => OrderStatus.opened) (fun _ => (0 : ℚ))
    (by intro n; exact fun h => OrderStatus.noConfusion h) (by intro n; rfl)
  obtain ⟨o, ho⟩ := h.2 true {} envStuck sigNoPrice 100 rfl rfl rfl rfl (by decide)
  exact ⟨h.1, by rw [ho], by rw [ho]⟩

/-! ## C8: position check during fill-wait -/

/-- Counterexample for C8: a run whose status trace is constantly `CANCELLED`
(so never `FILLED`) and whose position trace is constantly nonzero returns
`false`: the terminal status preempts the position check, so a nonzero
position does not satisfy the fill condition on its own. -/
theorem position_check_counterexample :
    waitForOrderFill (fun _ => OrderStatus.cancelled) (fun _ => (1 : ℚ)) 30 = false ∧
    OrderStatus.cancelled ≠ OrderStatus.filled ∧ (1 : ℚ) ≠ 0 := by
  refine ⟨?_, by decide, by norm_num⟩
  rw [waitForOrderFill, waitForFillAux, if_neg (by decide), if_pos (by decide)]

theorem waitForFillAux_position_true (statusAt : ℕ → OrderStatus)
    (contractsAt : ℕ → ℚ) :
    ∀ (fuel k attempt : ℕ), k < fuel →
    (∀ i, i ≤ k → statusAt (attempt + i) ≠ OrderStatus.cancelled ∧
      statusAt (attempt + i) ≠ OrderStatus.rejected) →
    contractsAt (attempt + k) ≠ 0 →
    waitForFillAux statusAt contractsAt attempt fuel = true := by
  intro fuel
  induction fuel with
  | zero => intro k attempt hk; exact absurd hk (Nat.not_lt_zero k)
  | succ f ih =>
    intro k attempt hk hterm hc
    rw [waitForFillAux]
    by_cases hf : statusAt attempt = OrderStatus.filled
    · rw [if_pos hf]
    · rw [if_neg hf]
      have h0 := hterm 0 (Nat.zero_le k)
      rw [Nat.add_zero] at h0
      rw [if_neg (by tauto)]
      by_cases hc0 : contractsAt attempt ≠ 0
      · rw [if_pos hc0]
      · rw [if_neg hc0]
        cases k with
        | zero =>
          rw [Nat.add_zero] at hc
          exact absurd hc hc0
        | succ j =>
          apply ih j (attempt + 1) (Nat.lt_of_succ_lt_succ hk)
          · intro i hi
            have hx := hterm (i + 1) (Nat.succ_le_succ hi)
            rwa [show attempt + (i + 1) = attempt + 1 + i from by omega] at hx
          · rwa [show attempt + (j + 1) = attempt + 1 + j from by omega] at hc

/-- C8 (amended): during fill-waiting a reported nonzero position satisfies
the fill condition provided no terminal `CANCELLED`/`REJECTED` status was
reported at or before that attempt: for every polling run in which some
attempt `k` before the timeout reports nonzero contracts and every attempt up
to `k` reports a status that is neither `CANCELLED` nor `REJECTED`,
`wait_for_order_fill` returns `true`. -/
theorem position_check_amended (statusAt : ℕ → OrderStatus) (contractsAt : ℕ → ℚ)
    (timeout k : ℕ) (hk : k < timeout)
    (hterm : ∀ i, i ≤ k → statusAt i ≠ OrderStatus.cancelled ∧
      statusAt i ≠ OrderStatus.rejected)
    (hc : contractsAt k ≠ 0) :
    waitForOrderFill statusAt contractsAt timeout = true := by
  rw [waitForOrderFill]
  apply waitForFillAux_position_true statusAt contractsAt timeout k 0 hk
  · intro i hi
    simpa using hterm i hi
  · simpa using hc

/-- Witness for C8 (amended): status constantly `OPEN`, a position of one
contract appearing at attempt 2, timeout 30. -/
theorem position_check_amended_witness :
    waitForOrderFill (fun _ => OrderStatus.opened)
      (fun n => if n = 2 then (1 : ℚ) else 0) 30 = true := by
  apply position_check_amended (fun _ => OrderStatus.opened)
    (fun n => if n = 2 then (1 : ℚ) else 0) 30 2 (by norm_num)
  · intro i _
    exact ⟨by decide, by decide⟩
  · norm_num

/-! ## C9: leverage failure aborts the signal -/

/-- C9: when setting the leverage fails, the executor aborts the buy or sell
signal before creating any order: no entry order is submitted. -/
theorem leverage_failure_aborts (isLong : Bool) (cfg : TradingConfig) (env : Env)
    (sig : TradingSignal) (h : env.leverageOk = false) :
    (executeEntrySignal isLong cfg env sig).submitted = [] := by
  cases hmp : env.midPrice with
  | none => simp [executeEntrySignal, hmp]
  | some cur => simp [executeEntrySignal, hmp, h]

/-- A concrete environment whose `set_leverage` call fails. -/
def envLevFail : Env := { midPrice := some 100, leverageOk := false }

/-- Witness for C9: a concrete buy signal in an environment with a failing
leverage call submits no order. -/
theorem leverage_failure_aborts_witness :
    (executeEntrySignal true {} envLevFail sigNoPrice).submitted = [] :=
  leverage_failure_aborts true {} envLevFail sigNoPrice rfl

/-! ## C10: close_position always sells -/

/-- C10: whenever `close_position` finds an open position (nonzero reported
contracts), the closing order it submits has the hardcoded side `sell`, the
reduce-only flag, and the absolute reported position size as its amount —
regardless of the sign of the position (the position's side is not an input
of the computation). -/
theorem close_position_always_sell (c cur : ℚ) (sym : String) (h : c ≠ 0) :
    close_position (some c) cur sym =
      some { symbol := sym, side := OrderSide.sell, otype := OrderType.market,
             quantity := |c|, price := some cur, leverage := none,
             reduceOnly := true } := by
  simp [close_position, h]

/-- Witness for C10: a short position of −2 contracts and a long position of
5 contracts are both closed with a reduce-only `sell` of the absolute size. -/
theorem close_position_always_sell_witness :
    close_position (some (-2)) 100 "ETH" =
      some { symbol := "ETH", side := OrderSide.sell, otype := OrderType.market,
             quantity := 2, price := some 100, leverage := none,
             reduceOnly := true } ∧
    close_position (some 5) 100 "ETH" =
      some { symbol := "ETH", side := OrderSide.sell, otype := OrderType.market,
             quantity := 5, price := some 100, leverage := none,
             reduceOnly := true } := by
  constructor
  · have h := close_position_always_sell (-2) 100 "ETH" (by norm_num)
    rw [show |(-2 : ℚ)| = 2 from by norm_num] at h
    exact h
  · have h := close_position_always_sell 5 100 "ETH" (by norm_num)
    rw [show |(5 : ℚ)| = 5 from by norm_num] at h
    exact h

end RocketFuel
